import Mathlib

/-!
Verification of the opencode-obsidian plugin core.

This file gives a shallow embedding of the two stateful components of the
repository and proves the specified properties about them:

* `OpenCodeClient` (src/WorkspaceContext.ts, class `OpenCodeClient`): the
  session context synchronizer.  Remote HTTP calls are modelled as an event
  trace (`RemoteCall`); the network is an oracle (`Env`) mapping each request
  to the unwrapped response payload (`none` models both transport failure and
  an empty/unusable envelope, matching `request` + `unwrap` in the source,
  which convert every failure to `null`).

* `ProcessManager` (src/ProcessManager.ts): the process supervisor.  The
  asynchronous child-process events that can fire while `start()` awaits
  readiness are injected through a scenario environment (`StartEnv`,
  `StopEnv`); OS-level effects (spawn, signals, waits) are recorded as an
  event trace (`PMEvent`).  A rejected promise is modelled by the
  `AsyncResult.thrown` result; JavaScript string falsiness (empty string) is
  modelled explicitly wherever the source relies on it.
-/

/-! ## Data model of the OpenCode client (src/WorkspaceContext.ts) -/

/-- `OpenCodePart` from src/WorkspaceContext.ts (the `metadata` and `time`
fields are never read by the client and are omitted). -/
structure OpenCodePart where
  id : String
  messageID : String
  sessionID : String
  type : String
  text : Option String
  ignored : Option Bool
  synthetic : Option Bool
deriving DecidableEq

/-- `OpenCodeMessageInfo` from src/WorkspaceContext.ts. -/
structure OpenCodeMessageInfo where
  id : String
  sessionID : String
deriving DecidableEq

/-- `OpenCodeMessageWithParts` from src/WorkspaceContext.ts. -/
structure OpenCodeMessageWithParts where
  info : OpenCodeMessageInfo
  parts : List OpenCodePart
deriving DecidableEq

/-- `OpenCodeSession` from src/WorkspaceContext.ts (`id?: string`). -/
structure OpenCodeSession where
  id : Option String
deriving DecidableEq

/-- The partial update object passed to `updatePart` (`{ text?; ignored? }`).
A `none` field models an absent key of the object literal. -/
structure PartUpdates where
  text : Option String
  ignored : Option Bool
deriving DecidableEq

/-- The object spread `{ ...part, ...updates }` in `updatePart`: a present
key of `updates` overrides the corresponding field of `part`. -/
def applyUpdates (part : OpenCodePart) (u : PartUpdates) : OpenCodePart :=
  { part with
    text := match u.text with
      | some t => some t
      | none => part.text
    ignored := match u.ignored with
      | some b => some b
      | none => part.ignored }

/-- One remote HTTP request issued by the client, identified by method and
path exactly as built in the source (`request(method, path, body)`). -/
inductive RemoteCall where
  | postSession (title : String)
  | postMessage (sessionId : String) (text : String)
  | patchPart (sessionID : String) (messageID : String) (partID : String)
      (body : OpenCodePart)
deriving DecidableEq

/-- Whether a call is the part-update PATCH. -/
def RemoteCall.isPatch : RemoteCall → Bool
  | .patchPart _ _ _ _ => true
  | _ => false

/-- Whether a call is the message-creation POST. -/
def RemoteCall.isPost : RemoteCall → Bool
  | .postMessage _ _ => true
  | _ => false

/-- Network oracle: for each request shape, the payload obtained after
`request` + `unwrap` in the source (`none` = transport failure, non-2xx
status, or an envelope that unwraps to nothing — all of which the source
collapses to `null`). -/
structure Env where
  postResponse : String → String → Option OpenCodeMessageWithParts
  patchResponse : String → String → String → OpenCodePart → Option OpenCodePart
  sessionResponse : Option OpenCodeSession

/-- The mutable fields of class `OpenCodeClient`. -/
structure OpenCodeClient where
  apiBaseUrl : String
  uiBaseUrl : String
  projectDirectory : String
  trackedSessionId : Option String
  lastPart : Option OpenCodePart
deriving DecidableEq

/-- `normalizeBaseUrl`: `baseUrl.replace(/\/+$/, "")` — strip every trailing
slash. -/
def normalizeBaseUrl (baseUrl : String) : String :=
  String.mk ((baseUrl.data.reverse.dropWhile (fun c => c == '/')).reverse)

/-- The `OpenCodeClient` constructor. -/
def OpenCodeClient.make (apiBaseUrl uiBaseUrl projectDirectory : String) :
    OpenCodeClient :=
  { apiBaseUrl := normalizeBaseUrl apiBaseUrl
    uiBaseUrl := normalizeBaseUrl uiBaseUrl
    projectDirectory := projectDirectory
    trackedSessionId := none
    lastPart := none }

/-- `resetTracking`. -/
def resetTracking (st : OpenCodeClient) : OpenCodeClient :=
  { st with trackedSessionId := none, lastPart := none }

/-- `updateBaseUrl`. -/
def updateBaseUrl (st : OpenCodeClient)
    (apiBaseUrl uiBaseUrl projectDirectory : String) : OpenCodeClient :=
  let nextApiUrl := normalizeBaseUrl apiBaseUrl
  let nextUiUrl := normalizeBaseUrl uiBaseUrl
  if nextApiUrl ≠ st.apiBaseUrl ∨ nextUiUrl ≠ st.uiBaseUrl ∨
      projectDirectory ≠ st.projectDirectory then
    resetTracking { st with
      apiBaseUrl := nextApiUrl
      uiBaseUrl := nextUiUrl
      projectDirectory := projectDirectory }
  else st

/-- `getSessionUrl`. -/
def getSessionUrl (st : OpenCodeClient) (sessionId : String) : String :=
  st.uiBaseUrl ++ "/session/" ++ sessionId

/-- The literal text matched by the regex `\/session\/` of
`resolveSessionId`. -/
def sessionMarker : List Char := "/session/".data

/-- A character matched by the capture class `[^/?#]` of
`resolveSessionId`. -/
def isSegChar (c : Char) : Bool := !(c == '/' || c == '?' || c == '#')

/-- Left-to-right scan of `iframeUrl.match(/\/session\/([^/?#]+)/)`: at the
first position where `/session/` occurs followed by at least one character
outside `/?#`, capture the maximal run of such characters; a position where
the capture group would be empty does not match and the scan resumes one
character later, exactly as a backtracking regex engine does. -/
def scanSession : List Char → Option (List Char)
  | [] => none
  | c :: rest =>
    if sessionMarker.isPrefixOf (c :: rest) then
      let seg := ((c :: rest).drop sessionMarker.length).takeWhile isSegChar
      if seg.isEmpty then scanSession rest else some seg
    else scanSession rest

/-- `resolveSessionId`: the first regex capture, or `null`. -/
def resolveSessionId (iframeUrl : String) : Option String :=
  (scanSession iframeUrl.data).map fun l => String.mk l

/-- JavaScript truthiness of `string | null` (`null` and `""` are falsy),
used by the guards of `updateContext`. -/
def truthyStr : Option String → Bool
  | none => false
  | some s => s ≠ ""

/-- Lines 182–185 of `updateContext`: drop the tracking when the tracked
session id is truthy and differs from the given one, then adopt the given
session id as tracked. -/
def guardReset (st : OpenCodeClient) (sessionId : String) : OpenCodeClient :=
  let st1 :=
    if truthyStr st.trackedSessionId ∧ st.trackedSessionId ≠ some sessionId then
      resetTracking st
    else st
  { st1 with trackedSessionId := some sessionId }

/-- `updatePart` (private): PATCH
`/session/{sessionID}/message/{messageID}/part/{id}` with the spread body; on
an unwrapped reply, remember it as `lastPart` and succeed, else fail with the
state unchanged. -/
def updatePart (env : Env) (st : OpenCodeClient) (part : OpenCodePart)
    (updates : PartUpdates) : OpenCodeClient × List RemoteCall × Bool :=
  let body := applyUpdates part updates
  let call := RemoteCall.patchPart part.sessionID part.messageID part.id body
  match env.patchResponse part.sessionID part.messageID part.id body with
  | some updated => ({ st with lastPart := some updated }, [call], true)
  | none => (st, [call], false)

/-- `ignorePreviousPart` (private): tombstone the tracked part with
`{ ignored: true }`; only a successful PATCH clears the local tracking. -/
def ignorePreviousPart (env : Env) (st : OpenCodeClient) :
    OpenCodeClient × List RemoteCall × Bool :=
  match st.lastPart with
  | none => (st, [], false)
  | some part =>
    let r := updatePart env st part { text := none, ignored := some true }
    if r.2.2 then ({ r.1 with lastPart := none }, r.2.1, true)
    else (r.1, r.2.1, false)

/-- `sendPrompt` followed by lines 200–203 of `updateContext`: POST a fresh
context message and, when the reply carries a truthy message id, remember its
first part (or `null` when the part list is empty) as `lastPart`. -/
def sendNewContext (env : Env) (st : OpenCodeClient) (sessionId t : String) :
    OpenCodeClient × List RemoteCall :=
  let call := RemoteCall.postMessage sessionId t
  match env.postResponse sessionId t with
  | some m =>
    if m.info.id ≠ "" then ({ st with lastPart := m.parts.head? }, [call])
    else (st, [call])
  | none => (st, [call])

/-- `updateContext`: the full public operation (lines 176–204). -/
def updateContext (env : Env) (st : OpenCodeClient) (sessionId : String)
    (contextText : Option String) : OpenCodeClient × List RemoteCall :=
  let st1 := guardReset st sessionId
  match contextText with
  | none =>
    let r := ignorePreviousPart env st1
    (r.1, r.2.1)
  | some t =>
    if t = "" then
      let r := ignorePreviousPart env st1
      (r.1, r.2.1)
    else
      match st1.lastPart with
      | some part =>
        let r := updatePart env st1 part { text := some t, ignored := none }
        if r.2.2 then (r.1, r.2.1)
        else
          let r2 := ignorePreviousPart env r.1
          let r3 := sendNewContext env r2.1 sessionId t
          (r3.1, r.2.1 ++ r2.2.1 ++ r3.2)
      | none => sendNewContext env st1 sessionId t

/-- `createSession`: POST `/session`; the state is not touched, the returned
id is `session?.id ?? null`. -/
def createSession (env : Env) (st : OpenCodeClient) :
    OpenCodeClient × List RemoteCall × Option String :=
  (st, [RemoteCall.postSession "Obsidian"],
    env.sessionResponse.bind OpenCodeSession.id)

/-- The implicit client invariant of claim C9: a tracked part implies a
tracked session. -/
def ClientInv (st : OpenCodeClient) : Prop :=
  st.lastPart.isSome → st.trackedSessionId.isSome

/-! ## Data model of the process supervisor (src/ProcessManager.ts) -/

/-- `ProcessState` from src/ProcessManager.ts. -/
inductive ProcessState where
  | stopped
  | starting
  | running
  | error
deriving DecidableEq

/-- The settings fields that `ProcesssManager` reads (from
`OpenCodeSettings` in src/types.ts, as used by src/ProcessManager.ts). -/
structure OpenCodeSettings where
  opencodePath : String
  port : Nat
  hostname : String
  startupTimeout : Nat
deriving DecidableEq

/-- A spawned child handle; `pid` is `undefined` (`none`) when the OS did
not assign one. -/
structure ProcHandle where
  pid : Option Nat
deriving DecidableEq

/-- The mutable fields of class `ProcessManager`. -/
structure PMState where
  process : Option ProcHandle
  state : ProcessState
  lastError : Option String
  earlyExitCode : Option Int
  settings : OpenCodeSettings
  projectDirectory : String
deriving DecidableEq

/-- Observable supervisor effects, in program order: state-change
notifications (`setState` invoking `onStateChange`), the spawn, the
process-tree kills and the bounded waits of teardown. -/
inductive PMEvent where
  | stateChange (s : ProcessState)
  | spawn (path : String) (args : List String)
  | killTree (pid : Nat) (signal : String)
  | waitExit (timeoutMs : Nat)
deriving DecidableEq

/-- The settled outcome of an async operation: a resolved value, or a
rejected promise carrying an error message. -/
inductive AsyncResult (α : Type) where
  | ok (val : α)
  | thrown (msg : String)
deriving DecidableEq

/-- `setState`: record the new state and notify observers. -/
def setStateEv (st : PMState) (s : ProcessState) : PMState × List PMEvent :=
  ({ st with state := s }, [PMEvent.stateChange s])

/-- `setError`: record the message, log it, and transition to Error. -/
def setErrorEv (st : PMState) (msg : String) : PMState × List PMEvent :=
  setStateEv { st with lastError := some msg } .error

/-- An ASCII apostrophe, used verbatim inside source error messages. -/
def squote : String := String.singleton (Char.ofNat 39)

/-- Scenario parameters of one `stop()` call: the platform branch taken by
`killProcessTree`, whether each signal delivery throws (`process.kill` on
POSIX / the `taskkill` command on Windows), and whether the child exits
within the graceful 2s wait (the SIGKILL 3s wait only changes logging). -/
structure StopEnv where
  isWin32 : Bool
  termThrow : Option String
  killThrow : Option String
  gracefulExit : Bool
  forceExit : Bool
deriving DecidableEq

/-- The kill call recorded by `killProcessTree`: on Windows the signal
argument is ignored and `taskkill /T /F` runs instead. -/
def killTreeCall (isWin32 : Bool) (pid : Nat) (signal : String) : PMEvent :=
  if isWin32 then PMEvent.killTree pid "taskkill"
  else PMEvent.killTree pid signal

/-- `stop()` (lines 148–190): capture and clear the handle, transition to
Stopped before any teardown I/O, then SIGTERM the tree, wait 2s, and if the
child is still alive SIGKILL the tree and wait 3s; a throwing signal
delivery aborts the remaining steps and rejects the returned promise. -/
def stop (env : StopEnv) (st : PMState) :
    PMState × List PMEvent × AsyncResult Unit :=
  match st.process with
  | none =>
    let r := setStateEv st .stopped
    (r.1, r.2, .ok ())
  | some proc =>
    match proc.pid with
    | none =>
      let r := setStateEv st .stopped
      ({ r.1 with process := none }, r.2, .ok ())
    | some pid =>
      if pid = 0 then
        let r := setStateEv st .stopped
        ({ r.1 with process := none }, r.2, .ok ())
      else
        let r := setStateEv st .stopped
        let st2 := { r.1 with process := none }
        let evT := r.2 ++ [killTreeCall env.isWin32 pid "SIGTERM"]
        match env.termThrow with
        | some e => (st2, evT, .thrown e)
        | none =>
          let evW := evT ++ [PMEvent.waitExit 2000]
          if env.gracefulExit then (st2, evW, .ok ())
          else
            let evK := evW ++ [killTreeCall env.isWin32 pid "SIGKILL"]
            match env.killThrow with
            | some e => (st2, evK, .thrown e)
            | none => (st2, evK ++ [PMEvent.waitExit 3000], .ok ())

/-- What `waitForServerOrExit` observes while `start()` awaits readiness:
the probe succeeds, the child exits (its `exit` handler having run), the
spawn fails (the `error` handler having run, `enoent` selecting the
missing-executable variant), or the timeout elapses with the child alive. -/
inductive PollOutcome where
  | healthy
  | exited (code : Option Int)
  | spawnFailed (enoent : Bool) (msg : String)
  | timeout
deriving DecidableEq

/-- Scenario parameters of one `start()` call. -/
structure StartEnv where
  healthBeforeSpawn : Bool
  spawnPid : Option Nat
  poll : PollOutcome
  stopEnv : StopEnv
deriving DecidableEq

/-- The fixed argument contract of the spawn (lines 73–92). -/
def spawnArgs (st : PMState) : List String :=
  ["serve", "--port", toString st.settings.port, "--hostname",
    st.settings.hostname, "--cors", "app://obsidian.md"]

/-- Lines 139–145 of `start()`: after the forced `stop()`, report the most
specific poll-failure reason — the recorded early-exit code, a missing
process handle, or the generic timeout. -/
def pollFailDiag (st : PMState) : PMState × List PMEvent :=
  match st.earlyExitCode with
  | some c =>
    setErrorEv st ("Process exited unexpectedly (exit code " ++ toString c ++ ")")
  | none =>
    if st.process = none then
      setErrorEv st "Process exited before server became ready"
    else
      setErrorEv st "Server failed to start within timeout"

/-- `start()` (lines 46–146).  The guard runs synchronously before any
suspension point, so a reentrant call arriving mid-startup is exactly an
application of this function to the current (Starting) state.  The child's
`exit` handler fires while state is Starting, so it records a nonzero exit
code and clears the handle; the `error` handler clears the handle and sets
the spawn-failure error.  A rejection of the awaited `stop()` propagates. -/
def start (env : StartEnv) (st : PMState) :
    PMState × List PMEvent × AsyncResult Bool :=
  if st.state = .running ∨ st.state = .starting then (st, [], .ok true)
  else
    let r1 := setStateEv st .starting
    let st1 := { r1.1 with lastError := none, earlyExitCode := none }
    if st1.projectDirectory = "" then
      let r2 := setErrorEv st1 "Project directory (vault) not configured"
      (r2.1, r1.2 ++ r2.2, .ok false)
    else if env.healthBeforeSpawn then
      let r2 := setStateEv st1 .running
      (r2.1, r1.2 ++ r2.2, .ok true)
    else
      let st2 := { st1 with process := some { pid := env.spawnPid } }
      let ev2 := r1.2 ++ [PMEvent.spawn st1.settings.opencodePath (spawnArgs st1)]
      match env.poll with
      | .healthy =>
        let r3 := setStateEv st2 .running
        (r3.1, ev2 ++ r3.2, .ok true)
      | .exited code =>
        let st3 := { st2 with
          process := none
          earlyExitCode := match code with
            | some c => if c ≠ 0 then some c else none
            | none => none }
        let r4 := stop env.stopEnv st3
        match r4.2.2 with
        | .thrown e => (r4.1, ev2 ++ r4.2.1, .thrown e)
        | .ok _ =>
          let r5 := pollFailDiag r4.1
          (r5.1, ev2 ++ r4.2.1 ++ r5.2, .ok false)
      | .spawnFailed enoent msg =>
        let st3 := { st2 with process := none }
        let r4 := setErrorEv st3
          (if enoent then
            "Executable not found at " ++ squote ++ st3.settings.opencodePath ++ squote
          else "Failed to start: " ++ msg)
        (r4.1, ev2 ++ r4.2, .ok false)
      | .timeout =>
        let r4 := stop env.stopEnv st2
        match r4.2.2 with
        | .thrown e => (r4.1, ev2 ++ r4.2.1, .thrown e)
        | .ok _ =>
          let r5 := pollFailDiag r4.1
          (r5.1, ev2 ++ r4.2.1 ++ r5.2, .ok false)

/-- A sequence of `start()` calls, threading the state and concatenating
the event traces. -/
def runStarts : List StartEnv → PMState → PMState × List PMEvent
  | [], st => (st, [])
  | e :: es, st =>
    let r := start e st
    let rs := runStarts es r.1
    (rs.1, r.2.1 ++ rs.2)

/-! ## Auxiliary predicates for the round-trip property -/

/-- `noMatchBefore u tail` states (computably) that while scanning the
character list `u ++ tail`, the marker `/session/` does not occur at any
position strictly inside `u`: the first place the regex of
`resolveSessionId` can match lies in `tail`. -/
def noMatchBefore : List Char → List Char → Bool
  | [], _ => true
  | c :: u, tail => !(sessionMarker.isPrefixOf (c :: (u ++ tail))) && noMatchBefore u tail

/-! ## Concrete scenarios used by witnesses and counterexamples -/

/-- A concrete context part living in session `S1`. -/
def partW1 : OpenCodePart :=
  { id := "p1", messageID := "m1", sessionID := "S1", type := "text",
    text := some "A", ignored := none, synthetic := none }

/-- A concrete message whose first (and only) part is `partW1`. -/
def msgW1 : OpenCodeMessageWithParts :=
  { info := { id := "m1", sessionID := "S1" }, parts := [partW1] }

/-- A healthy network: the context POST for session `S1` succeeds with
`msgW1`, every PATCH echoes its body, session creation succeeds. -/
def envW1 : Env :=
  { postResponse := fun s t => if s = "S1" ∧ t = "A" then some msgW1 else none
    patchResponse := fun _ _ _ body => some body
    sessionResponse := some { id := some "S1" } }

/-- A concrete part living in the empty-string session. -/
def partC6 : OpenCodePart :=
  { id := "p1", messageID := "m1", sessionID := "", type := "text",
    text := some "A", ignored := none, synthetic := none }

/-- A concrete message whose first part is `partC6`. -/
def msgC6 : OpenCodeMessageWithParts :=
  { info := { id := "m1", sessionID := "" }, parts := [partC6] }

/-- A network where the context POST for the empty-string session succeeds
with `msgC6` and every PATCH echoes its body. -/
def envC6 : Env :=
  { postResponse := fun s t => if s = "" ∧ t = "A" then some msgC6 else none
    patchResponse := fun _ _ _ body => some body
    sessionResponse := none }

/-- A client that already tracks session `S1` with live part `partW1`. -/
def clientTracking : OpenCodeClient :=
  { OpenCodeClient.make "http://host:4096" "http://host:4096" "/vault" with
    trackedSessionId := some "S1", lastPart := some partW1 }

/-- Concrete supervisor settings. -/
def settingsW : OpenCodeSettings :=
  { opencodePath := "opencode", port := 4096, hostname := "127.0.0.1",
    startupTimeout := 5000 }

/-- A teardown in which both signal deliveries succeed and the child never
exits (neither the graceful nor the forced wait sees an exit). -/
def stopEnvOk : StopEnv :=
  { isWin32 := false, termThrow := none, killThrow := none,
    gracefulExit := false, forceExit := false }

/-- A teardown in which the first signal delivery throws (e.g. the process
group is already gone and `process.kill` raises `ESRCH`). -/
def stopEnvThrow : StopEnv :=
  { isWin32 := false, termThrow := some "kill ESRCH", killThrow := none,
    gracefulExit := false, forceExit := false }

/-- A supervisor in the Stopped state with no child handle. -/
def pmStopped : PMState :=
  { process := none, state := .stopped, lastError := none,
    earlyExitCode := none, settings := settingsW, projectDirectory := "/vault" }

/-- A supervisor in the Running state owning a live child. -/
def pmRunning : PMState :=
  { process := some { pid := some 42 }, state := .running, lastError := none,
    earlyExitCode := none, settings := settingsW, projectDirectory := "/vault" }

/-- A startup scenario in which the health probe never succeeds, the spawn
works, and the child never exits: the startup-timeout scenario of the
specification. -/
def envTimeout : StartEnv :=
  { healthBeforeSpawn := false, spawnPid := some 123, poll := .timeout,
    stopEnv := stopEnvOk }

/-- A startup scenario in which the server is already healthy. -/
def envHealthy : StartEnv :=
  { healthBeforeSpawn := true, spawnPid := some 1, poll := .healthy,
    stopEnv := stopEnvOk }

/-! ## Helper lemmas -/

theorem guardReset_trackedSessionId (st : OpenCodeClient) (S : String) :
    (guardReset st S).trackedSessionId = some S := rfl

theorem eta_tracked (st : OpenCodeClient) (S : String)
    (h : st.trackedSessionId = some S) :
    { st with trackedSessionId := some S } = st := by
  cases st
  simp_all

theorem guardReset_same (st : OpenCodeClient) (S : String)
    (h : st.trackedSessionId = some S) : guardReset st S = st := by
  unfold guardReset
  rw [if_neg (by simp [h])]
  exact eta_tracked st S h

theorem guardReset_of_lastPart_none (st : OpenCodeClient) (S : String)
    (h : st.lastPart = none) :
    guardReset st S = { st with trackedSessionId := some S } := by
  unfold guardReset resetTracking
  split
  · cases st; simp_all
  · rfl

theorem guardReset_switch (st : OpenCodeClient) (S1 S2 : String)
    (h1 : st.trackedSessionId = some S1) (h2 : S1 ≠ "") (h3 : S1 ≠ S2) :
    guardReset st S2 =
      { st with trackedSessionId := some S2, lastPart := none } := by
  unfold guardReset resetTracking
  rw [if_pos (by simp [h1, truthyStr, h2, h3])]

theorem updatePart_trackedSessionId (env : Env) (st : OpenCodeClient)
    (part : OpenCodePart) (u : PartUpdates) :
    (updatePart env st part u).1.trackedSessionId = st.trackedSessionId := by
  unfold updatePart
  dsimp only
  split <;> rfl

theorem ignorePreviousPart_trackedSessionId (env : Env) (st : OpenCodeClient) :
    (ignorePreviousPart env st).1.trackedSessionId = st.trackedSessionId := by
  unfold ignorePreviousPart
  split
  · rfl
  · dsimp only
    split <;> simp [updatePart_trackedSessionId]

theorem sendNewContext_trackedSessionId (env : Env) (st : OpenCodeClient)
    (sid t : String) :
    (sendNewContext env st sid t).1.trackedSessionId = st.trackedSessionId := by
  unfold sendNewContext
  split
  · split <;> rfl
  · rfl

theorem sendNewContext_calls (env : Env) (st : OpenCodeClient) (sid t : String) :
    (sendNewContext env st sid t).2 = [RemoteCall.postMessage sid t] := by
  unfold sendNewContext
  split
  · split <;> rfl
  · rfl

theorem updateContext_trackedSessionId (env : Env) (st : OpenCodeClient)
    (sid : String) (t : Option String) :
    (updateContext env st sid t).1.trackedSessionId = some sid := by
  unfold updateContext
  dsimp only
  split
  · simp [ignorePreviousPart_trackedSessionId, guardReset_trackedSessionId]
  · split
    · simp [ignorePreviousPart_trackedSessionId, guardReset_trackedSessionId]
    · split
      · split
        · simp [updatePart_trackedSessionId, guardReset_trackedSessionId]
        · simp [sendNewContext_trackedSessionId,
            ignorePreviousPart_trackedSessionId, updatePart_trackedSessionId,
            guardReset_trackedSessionId]
      · simp [sendNewContext_trackedSessionId, guardReset_trackedSessionId]

theorem guardReset_lastPart_of_none (st : OpenCodeClient) (S : String)
    (h : st.lastPart = none) : (guardReset st S).lastPart = none := by
  rw [guardReset_of_lastPart_none st S h]
  exact h

theorem updateContext_no_part (env : Env) (st : OpenCodeClient)
    (S txt : String) (hpart : st.lastPart = none) (htxt : txt ≠ "") :
    updateContext env st S (some txt) = sendNewContext env (guardReset st S) S txt := by
  unfold updateContext
  dsimp only
  rw [if_neg htxt, guardReset_lastPart_of_none st S hpart]

theorem sendNewContext_success (env : Env) (st : OpenCodeClient) (sid t : String)
    (m : OpenCodeMessageWithParts) (hpost : env.postResponse sid t = some m)
    (hid : m.info.id ≠ "") :
    sendNewContext env st sid t =
      ({ st with lastPart := m.parts.head? }, [RemoteCall.postMessage sid t]) := by
  unfold sendNewContext
  dsimp only
  rw [hpost]
  simp [hid]

theorem updateContext_patch_success (env : Env) (st : OpenCodeClient)
    (S txt : String) (p q : OpenCodePart)
    (htrack : st.trackedSessionId = some S) (hpart : st.lastPart = some p)
    (htxt : txt ≠ "")
    (hresp : env.patchResponse p.sessionID p.messageID p.id
        (applyUpdates p { text := some txt, ignored := none }) = some q) :
    updateContext env st S (some txt) =
      ({ st with lastPart := some q },
        [RemoteCall.patchPart p.sessionID p.messageID p.id
          (applyUpdates p { text := some txt, ignored := none })]) := by
  unfold updateContext
  dsimp only
  rw [if_neg htxt, guardReset_same st S htrack, hpart]
  simp [updatePart, hresp]

theorem updateContext_tombstone_success (env : Env) (st : OpenCodeClient)
    (S : String) (p q : OpenCodePart)
    (htrack : st.trackedSessionId = some S) (hpart : st.lastPart = some p)
    (hresp : env.patchResponse p.sessionID p.messageID p.id
        (applyUpdates p { text := none, ignored := some true }) = some q) :
    updateContext env st S (some "") =
      ({ st with lastPart := none },
        [RemoteCall.patchPart p.sessionID p.messageID p.id
          (applyUpdates p { text := none, ignored := some true })]) := by
  unfold updateContext
  dsimp only
  rw [if_pos rfl, guardReset_same st S htrack]
  simp [ignorePreviousPart, hpart, updatePart, hresp]

theorem updateContext_empty_no_part (env : Env) (st : OpenCodeClient)
    (S : String) (htrack : st.trackedSessionId = some S)
    (hpart : st.lastPart = none) :
    updateContext env st S (some "") = (st, []) := by
  unfold updateContext
  dsimp only
  rw [if_pos rfl, guardReset_same st S htrack]
  simp [ignorePreviousPart, hpart]

theorem isPrefixOf_append_self (l t : List Char) : l.isPrefixOf (l ++ t) = true := by
  induction l with
  | nil => cases t <;> rfl
  | cons c l ih => simp [List.isPrefixOf, List.cons_append, ih]

theorem takeWhile_all (s : List Char) (h : ∀ c ∈ s, isSegChar c = true) :
    s.takeWhile isSegChar = s := by
  induction s with
  | nil => rfl
  | cons c s ih =>
    have hc := h c (by simp)
    simp [List.takeWhile_cons, hc, ih fun x hx => h x (by simp [hx])]

theorem scanSession_cons_pos (c : Char) (rest : List Char)
    (h : sessionMarker.isPrefixOf (c :: rest) = true)
    (hseg : (((c :: rest).drop sessionMarker.length).takeWhile isSegChar).isEmpty = false) :
    scanSession (c :: rest) =
      some (((c :: rest).drop sessionMarker.length).takeWhile isSegChar) := by
  unfold scanSession
  rw [if_pos h]
  dsimp only
  rw [if_neg (by simp [hseg])]

theorem scanSession_cons_neg (c : Char) (rest : List Char)
    (h : sessionMarker.isPrefixOf (c :: rest) = false) :
    scanSession (c :: rest) = scanSession rest := by
  conv_lhs => unfold scanSession
  rw [if_neg (by simp [h])]

theorem scanSession_marker (s : List Char) (h1 : s ≠ [])
    (h2 : ∀ c ∈ s, isSegChar c = true) :
    scanSession (sessionMarker ++ s) = some s := by
  cases s with
  | nil => exact absurd rfl h1
  | cons a s2 =>
    have he : sessionMarker ++ (a :: s2) = '/' :: ("session/".data ++ (a :: s2)) := rfl
    have hmatch : sessionMarker.isPrefixOf (sessionMarker ++ (a :: s2)) = true :=
      isPrefixOf_append_self _ _
    have hdrop : (sessionMarker ++ (a :: s2)).drop sessionMarker.length = a :: s2 :=
      List.drop_left _ _
    have htake : (a :: s2).takeWhile isSegChar = a :: s2 := takeWhile_all _ h2
    rw [he] at hmatch hdrop ⊢
    rw [scanSession_cons_pos '/' _ hmatch (by rw [hdrop, htake]; rfl)]
    rw [hdrop, htake]

theorem scanSession_skip (u tail : List Char) (h : noMatchBefore u tail = true) :
    scanSession (u ++ tail) = scanSession tail := by
  induction u with
  | nil => rfl
  | cons c u ih =>
    unfold noMatchBefore at h
    rw [Bool.and_eq_true] at h
    have hpref : sessionMarker.isPrefixOf (c :: (u ++ tail)) = false := by
      have := h.1
      simpa using this
    rw [List.cons_append, scanSession_cons_neg c (u ++ tail) hpref]
    exact ih h.2

/-! ## The claims -/

/-- C1: for two successive successful `updateContext(S, "A")` then
`updateContext(S, "B")` calls on the same session `S` with no tracked part
beforehand, exactly one message-creation POST and exactly one part-update
PATCH are issued in total, and the PATCH addresses the same part id that the
POST response returned as its first part. -/
theorem updateContext_single_post_single_patch
    (env : Env) (st : OpenCodeClient) (S : String)
    (m : OpenCodeMessageWithParts) (p q : OpenCodePart) (rest : List OpenCodePart)
    (hpart : st.lastPart = none)
    (hpost : env.postResponse S "A" = some m)
    (hid : m.info.id ≠ "")
    (hparts : m.parts = p :: rest)
    (hpatch : env.patchResponse p.sessionID p.messageID p.id
        (applyUpdates p { text := some "B", ignored := none }) = some q) :
    (updateContext env st S (some "A")).2 ++
      (updateContext env (updateContext env st S (some "A")).1 S (some "B")).2 =
      [RemoteCall.postMessage S "A",
        RemoteCall.patchPart p.sessionID p.messageID p.id
          (applyUpdates p { text := some "B", ignored := none })] := by
  have h1 : updateContext env st S (some "A") =
      ({ guardReset st S with lastPart := m.parts.head? },
        [RemoteCall.postMessage S "A"]) := by
    rw [updateContext_no_part env st S "A" hpart (by decide)]
    exact sendNewContext_success env (guardReset st S) S "A" m hpost hid
  rw [h1]
  dsimp only
  rw [hparts]
  rw [updateContext_patch_success env
    { guardReset st S with lastPart := (p :: rest).head? } S "B" p q rfl rfl
    (by decide) hpatch]
  rfl

/-- Witness for C1 at a concrete client, session and network. -/
theorem updateContext_single_post_single_patch_witness :
    (updateContext envW1 (OpenCodeClient.make "http://host:4096" "http://host:4096" "/vault") "S1" (some "A")).2 ++
      (updateContext envW1
        (updateContext envW1 (OpenCodeClient.make "http://host:4096" "http://host:4096" "/vault") "S1" (some "A")).1
        "S1" (some "B")).2 =
      [RemoteCall.postMessage "S1" "A",
        RemoteCall.patchPart partW1.sessionID partW1.messageID partW1.id
          (applyUpdates partW1 { text := some "B", ignored := none })] :=
  updateContext_single_post_single_patch envW1
    (OpenCodeClient.make "http://host:4096" "http://host:4096" "/vault") "S1"
    msgW1 partW1 (applyUpdates partW1 { text := some "B", ignored := none }) []
    rfl (by decide) (by decide) rfl rfl

/-- C6 counterexample: the claim fails when the tracked session id is the
empty string.  Starting from a fresh client, `updateContext("", "A")` tracks
session `""` with a live part; the JavaScript truthiness guard
`if (this.trackedSessionId && ...)` then skips the reset on
`updateContext("X", "B")`, so a PATCH addressing the part of the previous
session `""` is issued even though `"X" ≠ ""`. -/
theorem updateContext_patches_previous_session_part :
    (updateContext envC6 (OpenCodeClient.make "" "" "") "" (some "A")).1.trackedSessionId = some "" ∧
    (updateContext envC6
        (updateContext envC6 (OpenCodeClient.make "" "" "") "" (some "A")).1
        "X" (some "B")).2 =
      [RemoteCall.patchPart "" "m1" "p1"
        (applyUpdates partC6 { text := some "B", ignored := none })] ∧
    ("" : String) ≠ "X" := by decide

/-- C6 amended: when the tracked session id `S1` is non-empty (so the
truthiness guard fires) and differs from the given `S2`, `updateContext`
never issues a PATCH against `S1`'s part: the tracking is discarded locally,
`S2` becomes the tracked session, and the only remote call is a fresh
message-creation POST for `S2`. -/
theorem updateContext_session_switch_only_posts
    (env : Env) (st : OpenCodeClient) (S1 S2 txt : String)
    (h1 : st.trackedSessionId = some S1) (h2 : S1 ≠ "") (h3 : S1 ≠ S2)
    (h4 : txt ≠ "") :
    (updateContext env st S2 (some txt)).1.trackedSessionId = some S2 ∧
    (updateContext env st S2 (some txt)).2 = [RemoteCall.postMessage S2 txt] := by
  refine ⟨updateContext_trackedSessionId env st S2 (some txt), ?_⟩
  unfold updateContext
  dsimp only
  rw [if_neg h4, guardReset_switch st S1 S2 h1 h2 h3]
  exact sendNewContext_calls env _ S2 txt

/-- Witness for the amended C6. -/
theorem updateContext_session_switch_only_posts_witness :
    (updateContext envW1 clientTracking "S2" (some "X")).1.trackedSessionId = some "S2" ∧
    (updateContext envW1 clientTracking "S2" (some "X")).2 =
      [RemoteCall.postMessage "S2" "X"] :=
  updateContext_session_switch_only_posts envW1 clientTracking "S1" "S2" "X"
    rfl (by decide) (by decide) (by decide)

/-- C7: `updateContext(S, "")` with a live part tracked for session `S`
issues exactly one remote call — a PATCH setting `ignored = true` on that
part — and clears the local tracking; a subsequent `updateContext(S, "")`
with no live part tracked issues zero remote calls. -/
theorem updateContext_empty_text_single_tombstone
    (env : Env) (st : OpenCodeClient) (S : String) (p q : OpenCodePart)
    (htrack : st.trackedSessionId = some S) (hpart : st.lastPart = some p)
    (hresp : env.patchResponse p.sessionID p.messageID p.id
        (applyUpdates p { text := none, ignored := some true }) = some q) :
    (updateContext env st S (some "")).2 =
      [RemoteCall.patchPart p.sessionID p.messageID p.id
        (applyUpdates p { text := none, ignored := some true })] ∧
    (applyUpdates p { text := none, ignored := some true }).ignored = some true ∧
    (updateContext env st S (some "")).1.lastPart = none ∧
    (updateContext env (updateContext env st S (some "")).1 S (some "")).2 = [] := by
  have h1 := updateContext_tombstone_success env st S p q htrack hpart hresp
  refine ⟨by rw [h1], rfl, by rw [h1], ?_⟩
  rw [h1]
  dsimp only
  rw [updateContext_empty_no_part env { st with lastPart := none } S htrack rfl]

/-- Witness for C7. -/
theorem updateContext_empty_text_single_tombstone_witness :
    (updateContext envW1 clientTracking "S1" (some "")).2 =
      [RemoteCall.patchPart partW1.sessionID partW1.messageID partW1.id
        (applyUpdates partW1 { text := none, ignored := some true })] ∧
    (applyUpdates partW1 { text := none, ignored := some true }).ignored = some true ∧
    (updateContext envW1 clientTracking "S1" (some "")).1.lastPart = none ∧
    (updateContext envW1 (updateContext envW1 clientTracking "S1" (some "")).1
        "S1" (some "")).2 = [] :=
  updateContext_empty_text_single_tombstone envW1 clientTracking "S1" partW1
    (applyUpdates partW1 { text := none, ignored := some true }) rfl rfl rfl

/-- C8 counterexample: the round-trip fails for a non-empty id containing a
slash — the capture class `[^/?#]+` stops at the slash, so
`resolveSessionId(getSessionUrl("a/b"))` yields `"a"`, not `"a/b"`. -/
theorem sessionUrl_roundtrip_fails_on_slash :
    resolveSessionId (getSessionUrl (OpenCodeClient.make "" "" "") "a/b") = some "a" ∧
    resolveSessionId (getSessionUrl (OpenCodeClient.make "" "" "") "a/b") ≠ some "a/b" ∧
    ("a/b" : String) ≠ "" := by decide

/-- C8 amended: the round-trip `resolveSessionId(getSessionUrl(id)) = id`
holds for every non-empty id whose characters avoid `/`, `?` and `#`,
provided the marker `/session/` does not already match anywhere inside the
UI-base-URL portion of the produced URL. -/
theorem sessionUrl_roundtrip_for_plain_ids (st : OpenCodeClient) (id : String)
    (h1 : id.data ≠ [])
    (h2 : ∀ c ∈ id.data, isSegChar c = true)
    (h3 : noMatchBefore st.uiBaseUrl.data (sessionMarker ++ id.data) = true) :
    resolveSessionId (getSessionUrl st id) = some id := by
  unfold resolveSessionId getSessionUrl
  have hds : ∀ a b : String, (a ++ b).data = a.data ++ b.data := by
    intro a b
    cases a
    cases b
    rfl
  have hdata : (st.uiBaseUrl ++ "/session/" ++ id).data =
      st.uiBaseUrl.data ++ (sessionMarker ++ id.data) := by
    rw [hds, hds, List.append_assoc]
    rfl
  rw [hdata, scanSession_skip _ _ h3, scanSession_marker id.data h1 h2]
  rfl

/-- Witness for the amended C8. -/
theorem sessionUrl_roundtrip_for_plain_ids_witness :
    resolveSessionId
      (getSessionUrl (OpenCodeClient.make "http://host:4096" "http://host:4096" "/vault")
        "ses_0123") = some "ses_0123" :=
  sessionUrl_roundtrip_for_plain_ids
    (OpenCodeClient.make "http://host:4096" "http://host:4096" "/vault") "ses_0123"
    (by decide) (by decide) (by decide)

/-- C9: in every reachable state, a tracked part implies a tracked session,
and all public operations preserve this invariant. -/
theorem client_invariant_preserved (env : Env) (st : OpenCodeClient)
    (a u d sid : String) (t : Option String) (h : ClientInv st) :
    ClientInv (OpenCodeClient.make a u d) ∧ ClientInv (updateBaseUrl st a u d) ∧
    ClientInv (resetTracking st) ∧ ClientInv (createSession env st).1 ∧
    ClientInv (updateContext env st sid t).1 := by
  refine ⟨?_, ?_, ?_, h, ?_⟩
  · intro hp
    simp [OpenCodeClient.make] at hp
  · unfold updateBaseUrl
    dsimp only
    split
    · intro hp
      simp [resetTracking] at hp
    · exact h
  · intro hp
    simp [resetTracking] at hp
  · intro _
    rw [updateContext_trackedSessionId]
    rfl

/-- Witness for C9. -/
theorem client_invariant_preserved_witness :
    ClientInv (OpenCodeClient.make "a" "b" "c") ∧
    ClientInv (updateBaseUrl (OpenCodeClient.make "x" "y" "z") "a" "b" "c") ∧
    ClientInv (resetTracking (OpenCodeClient.make "x" "y" "z")) ∧
    ClientInv (createSession envW1 (OpenCodeClient.make "x" "y" "z")).1 ∧
    ClientInv (updateContext envW1 (OpenCodeClient.make "x" "y" "z") "S1" (some "A")).1 :=
  client_invariant_preserved envW1 (OpenCodeClient.make "x" "y" "z") "a" "b" "c"
    "S1" (some "A") (by intro hp; simp [OpenCodeClient.make] at hp)

/-- C10: `updateBaseUrl` leaves `trackedSessionId` and `lastPart` unchanged
exactly when the normalized API base URL, the normalized UI base URL, and
the project directory all equal the stored values; otherwise it resets both
to `null` in the same call. -/
theorem updateBaseUrl_frame_and_reset (st : OpenCodeClient) (a u d : String) :
    (normalizeBaseUrl a = st.apiBaseUrl ∧ normalizeBaseUrl u = st.uiBaseUrl ∧
        d = st.projectDirectory →
      (updateBaseUrl st a u d).trackedSessionId = st.trackedSessionId ∧
      (updateBaseUrl st a u d).lastPart = st.lastPart) ∧
    (¬(normalizeBaseUrl a = st.apiBaseUrl ∧ normalizeBaseUrl u = st.uiBaseUrl ∧
        d = st.projectDirectory) →
      (updateBaseUrl st a u d).trackedSessionId = none ∧
      (updateBaseUrl st a u d).lastPart = none) := by
  constructor
  · rintro ⟨h1, h2, h3⟩
    unfold updateBaseUrl
    dsimp only
    rw [if_neg (by simp [h1, h2, h3])]
    exact ⟨rfl, rfl⟩
  · intro hne
    unfold updateBaseUrl
    dsimp only
    rw [if_pos (by tauto)]
    exact ⟨rfl, rfl⟩

/-- Witness for C10 (the frame direction, at equal inputs up to a trailing
slash). -/
theorem updateBaseUrl_frame_and_reset_witness :
    (updateBaseUrl (OpenCodeClient.make "http://a" "http://b" "d") "http://a/" "http://b" "d").trackedSessionId =
      (OpenCodeClient.make "http://a" "http://b" "d").trackedSessionId ∧
    (updateBaseUrl (OpenCodeClient.make "http://a" "http://b" "d") "http://a/" "http://b" "d").lastPart =
      (OpenCodeClient.make "http://a" "http://b" "d").lastPart :=
  (updateBaseUrl_frame_and_reset (OpenCodeClient.make "http://a" "http://b" "d")
    "http://a/" "http://b" "d").1 (by decide)

/-- C2: a `start()` call arriving while the supervisor is Starting or
Running returns true immediately, with no spawn (indeed no effect at all)
and the state unchanged; consequently, over any further sequence of
`start()` calls in such a state, no additional child process is ever
spawned — at most the one spawn that entered Starting exists.  The guard is
the first synchronous step of `start()` (before any suspension point), so a
reentrant call observes exactly this function applied to the current
state. -/
theorem start_guard_prevents_duplicate_spawn (st : PMState) (env : StartEnv)
    (envs : List StartEnv)
    (h : st.state = ProcessState.running ∨ st.state = ProcessState.starting) :
    start env st = (st, [], AsyncResult.ok true) ∧
    runStarts envs st = (st, []) := by
  have hg : ∀ e : StartEnv, start e st = (st, [], AsyncResult.ok true) := by
    intro e
    unfold start
    rw [if_pos h]
  refine ⟨hg env, ?_⟩
  induction envs with
  | nil => rfl
  | cons e es ih =>
    unfold runStarts
    rw [hg e]
    dsimp only
    rw [ih]
    rfl

/-- Witness for C2. -/
theorem start_guard_prevents_duplicate_spawn_witness :
    start envHealthy pmRunning = (pmRunning, [], AsyncResult.ok true) ∧
    runStarts [envHealthy] pmRunning = (pmRunning, []) :=
  start_guard_prevents_duplicate_spawn pmRunning envHealthy [envHealthy] (Or.inl rfl)

/-- C3: `stop()` always leaves the supervisor state equal to Stopped — for
every prior state and every teardown outcome (graceful exit, forced kill,
child that never exits, even a throwing signal delivery) — and the very
first effect of `stop()` is the state change to Stopped, before any
teardown I/O. -/
theorem stop_state_stopped_before_teardown (env : StopEnv) (st : PMState) :
    (stop env st).1.state = ProcessState.stopped ∧
    (stop env st).2.1.head? = some (PMEvent.stateChange ProcessState.stopped) := by
  unfold stop setStateEv
  dsimp only
  split
  · exact ⟨rfl, rfl⟩
  · split
    · exact ⟨rfl, rfl⟩
    · split
      · exact ⟨rfl, rfl⟩
      · split
        · exact ⟨rfl, rfl⟩
        · split
          · exact ⟨rfl, rfl⟩
          · split
            · exact ⟨rfl, rfl⟩
            · exact ⟨rfl, rfl⟩

/-- C4 counterexample: `stop()` can raise.  `killProcessTree` has no
try/catch, so a throwing `process.kill` (for example `ESRCH` when the
process group is already gone) propagates and the promise returned by
`stop()` rejects instead of resolving. -/
theorem stop_throws_on_signal_failure :
    (stop stopEnvThrow pmRunning).2.2 = AsyncResult.thrown "kill ESRCH" ∧
    (stop stopEnvThrow pmRunning).2.2 ≠ AsyncResult.ok () := by decide

/-- C4 amended: `stop()` returns normally whenever both signal deliveries
succeed — in particular a child that never exits is logged only — but a
throwing signal delivery (`process.kill` on POSIX, the `taskkill` command
on Windows) propagates to the caller. -/
theorem stop_returns_normally_when_signals_deliver (env : StopEnv) (st : PMState)
    (h1 : env.termThrow = none) (h2 : env.killThrow = none) :
    (stop env st).2.2 = AsyncResult.ok () := by
  unfold stop setStateEv
  dsimp only
  split
  · rfl
  · split
    · rfl
    · split
      · rfl
      · rw [h1]
        dsimp only
        split
        · rfl
        · rw [h2]

/-- Witness for the amended C4: both deliveries succeed yet the child never
exits, and `stop()` still resolves normally. -/
theorem stop_returns_normally_when_signals_deliver_witness :
    (stop stopEnvOk pmRunning).2.2 = AsyncResult.ok () :=
  stop_returns_normally_when_signals_deliver stopEnvOk pmRunning rfl rfl

/-- C5, evaluated at the failing input: spawn succeeds, the health probe
never succeeds within the startup budget, and the child never exits.
`start()` returns false and ends in Error as claimed, but the recorded
message is "Process exited before server became ready", not the generic
timeout message: the forced `stop()` has already cleared `this.process`, so
the `if (!this.process)` check of the diagnostic always fires and the
generic-timeout branch of the source is unreachable. -/
theorem start_timeout_reports_exited_message :
    (start envTimeout pmStopped).2.2 = AsyncResult.ok false ∧
    (start envTimeout pmStopped).1.state = ProcessState.error ∧
    (start envTimeout pmStopped).1.lastError =
      some "Process exited before server became ready" ∧
    (start envTimeout pmStopped).1.lastError ≠
      some "Server failed to start within timeout" := by decide
